import Mathlib

/-!
Verification of the `approx-derive` crate (`src/lib.rs`): a derive-macro
engine that, from a Rust struct definition carrying `#[approx(...)]`
attributes, generates implementations of the `approx` crate's `AbsDiffEq`
and `RelativeEq` traits.

The generator's input (the parsed struct and its attributes) is embedded as
plain data; the token streams the generator emits are modelled by a small
abstract syntax (`Operand`, `TolExpr`, `AbsCmp`, `RelCmp`, `DefaultExpr`),
and the runtime meaning of the generated predicates is given by an
evaluator parameterised over the collaborating `approx` trait
implementations (`Env`).
-/

namespace ApproxDerive

/-- Token standing for a Rust type.  The crate passes types around inside
`proc_macro2::TokenStream`s; we keep them abstract as strings. -/
abbrev Ty := String

/-- Token standing for a user-written Rust expression (a literal such as
`5e-2`), kept abstract. -/
abbrev RustExpr := String

/-- Fallback tolerance type `f64` used by `get_epsilon_type`. -/
def f64 : Ty := "f64"

/-- Mirror of `args_parsing::TypeCast` as used by `lib.rs`: the
`cast_field` / `cast_value` field attributes. -/
inductive TypeCast where
  | CastField
  | CastValue
deriving DecidableEq

/-- Per-field attribute record, mirroring the fields of
`args_parsing::FieldArgs` that `lib.rs` reads through
`field_with_args.args`. -/
structure FieldArgs where
  skip : Bool
  cast_strategy : Option TypeCast
  epsilon_static_value : Option RustExpr
  max_relative_static_value : Option RustExpr
deriving DecidableEq

/-- Parts of a `syn::Field` the generator reads: identifier and declared
type. -/
structure Field where
  ident : String
  ty : Ty
deriving DecidableEq

/-- Mirror of `args_parsing::FieldWithArgs`. -/
structure FieldWithArgs where
  field : Field
  args : FieldArgs
deriving DecidableEq

/-- Mirror of `args_parsing::StructArgs` as read by `lib.rs`. -/
structure StructArgs where
  epsilon_type : Option Ty
  default_epsilon_value : Option RustExpr
  default_max_relative_value : Option RustExpr
deriving DecidableEq

/-- Mirror of `AbsDiffEqParser`.  Of `item_struct` only the field list
matters to the claims (the name and generics are passed through
unmodified), so the parser is its field list plus the struct-level
arguments. -/
structure AbsDiffEqParser where
  fields_with_args : List FieldWithArgs
  struct_args : StructArgs
deriving DecidableEq

/-- Receiver of a field access in generated code: `self` or `other`. -/
inductive Recv where
  | own
  | other
deriving DecidableEq

/-- Operand token handed to a generated comparison call: either
`&recv.field_name` or `&(recv.field_name as to)`. -/
inductive Operand where
  | ref (recv : Recv) (field_name : String)
  | castRef (recv : Recv) (field_name : String) (ty : Ty)
deriving DecidableEq

/-- Tolerance-expression token handed to a generated comparison call:
a user-supplied static expression, the ambient identifier `epsilon`, the
ambient identifier `max_relative`, or a cast `t as ty` of one of these. -/
inductive TolExpr where
  | static (e : RustExpr)
  | ambientEpsilon
  | ambientMaxRelative
  | castTo (t : TolExpr) (ty : Ty)
deriving DecidableEq

/-- Mirror of `FieldFormatted` in `lib.rs`. -/
structure FieldFormatted where
  base_type : Ty
  own_field : Operand
  other_field : Operand
  epsilon : TolExpr
  max_relative : TolExpr
deriving DecidableEq

/-- Token for a generated trait-level default value: either the
user-supplied struct-level expression, or `ty::EPSILON`. -/
inductive DefaultExpr where
  | given (e : RustExpr)
  | epsilonConst (ty : Ty)
deriving DecidableEq

/-- Mirror of `AbsDiffEqParser::get_epsilon_type` (lib.rs:255-268): the
explicit `epsilon_type` attribute, or else the declared type of the first
field, or else `f64`. -/
def AbsDiffEqParser.get_epsilon_type (p : AbsDiffEqParser) : Ty :=
  ((p.struct_args.epsilon_type).orElse
    (fun _ => p.fields_with_args.head?.map (fun field => field.field.ty))).getD f64

/-- Mirror of `AbsDiffEqParser::get_epsilon_type_and_default_value`
(lib.rs:270-282). -/
def AbsDiffEqParser.get_epsilon_type_and_default_value (p : AbsDiffEqParser) :
    Ty × DefaultExpr :=
  let epsilon_type := p.get_epsilon_type
  let epsilon_default_value :=
    ((p.struct_args.default_epsilon_value).map DefaultExpr.given).getD
      (DefaultExpr.epsilonConst epsilon_type)
  (epsilon_type, epsilon_default_value)

/-- Mirror of `AbsDiffEqParser::get_max_relative_default_value`
(lib.rs:284-292). -/
def AbsDiffEqParser.get_max_relative_default_value (p : AbsDiffEqParser) : DefaultExpr :=
  let epsilon_type := p.get_epsilon_type
  ((p.struct_args.default_max_relative_value).map DefaultExpr.given).getD
    (DefaultExpr.epsilonConst epsilon_type)

/-- Mirror of `AbsDiffEqParser::format_field` (lib.rs:294-359). -/
def AbsDiffEqParser.format_field (p : AbsDiffEqParser) (field_with_args : FieldWithArgs) :
    Option FieldFormatted :=
  if field_with_args.args.skip then none
  else
    let epsilon_type := p.get_epsilon_type
    let field_name := field_with_args.field.ident
    let field_type := field_with_args.field.ty
    let cast_strategy := field_with_args.args.cast_strategy
    let epsilon :=
      ((field_with_args.args.epsilon_static_value).map TolExpr.static).getD
        TolExpr.ambientEpsilon
    let max_relative :=
      ((field_with_args.args.max_relative_static_value).map TolExpr.static).getD
        TolExpr.ambientMaxRelative
    match cast_strategy with
    | some TypeCast.CastField => some {
        base_type := epsilon_type
        own_field := Operand.castRef Recv.own field_name epsilon_type
        other_field := Operand.castRef Recv.other field_name epsilon_type
        epsilon := epsilon
        max_relative := max_relative }
    | some TypeCast.CastValue => some {
        base_type := field_type
        own_field := Operand.ref Recv.own field_name
        other_field := Operand.ref Recv.other field_name
        epsilon := TolExpr.castTo epsilon field_type
        max_relative := TolExpr.castTo max_relative field_type }
    | none => some {
        base_type := epsilon_type
        own_field := Operand.ref Recv.own field_name
        other_field := Operand.ref Recv.other field_name
        epsilon := epsilon
        max_relative := max_relative }

/-- One generated absolute comparison call
`<base_type as approx::AbsDiffEq>::abs_diff_eq(own_field, other_field, epsilon)`. -/
structure AbsCmp where
  base_type : Ty
  own_field : Operand
  other_field : Operand
  epsilon : TolExpr
deriving DecidableEq

/-- One generated relative comparison call
`<base_type as approx::RelativeEq>::relative_eq(own_field, other_field, epsilon, max_relative)`. -/
structure RelCmp where
  base_type : Ty
  own_field : Operand
  other_field : Operand
  epsilon : TolExpr
  max_relative : TolExpr
deriving DecidableEq

/-- Projection of a formatted field to the absolute comparison emitted for
it (lib.rs:373-379 discards `max_relative`). -/
def absCmpOfFormatted (f : FieldFormatted) : AbsCmp :=
  { base_type := f.base_type
    own_field := f.own_field
    other_field := f.other_field
    epsilon := f.epsilon }

/-- Projection of a formatted field to the relative comparison emitted for
it (lib.rs:397-404). -/
def relCmpOfFormatted (f : FieldFormatted) : RelCmp :=
  { base_type := f.base_type
    own_field := f.own_field
    other_field := f.other_field
    epsilon := f.epsilon
    max_relative := f.max_relative }

/-- Mirror of `AbsDiffEqParser::get_abs_diff_eq_fields` (lib.rs:361-385). -/
def AbsDiffEqParser.get_abs_diff_eq_fields (p : AbsDiffEqParser) : List AbsCmp :=
  p.fields_with_args.filterMap (fun field_with_args =>
    (p.format_field field_with_args).map absCmpOfFormatted)

/-- Mirror of `AbsDiffEqParser::get_rel_eq_fields` (lib.rs:387-410). -/
def AbsDiffEqParser.get_rel_eq_fields (p : AbsDiffEqParser) : List RelCmp :=
  p.fields_with_args.filterMap (fun field_with_args =>
    (p.format_field field_with_args).map relCmpOfFormatted)

/-- The content of a generated `impl approx::AbsDiffEq` block: the
`Epsilon` associated type, the `default_epsilon` body, and the ordered
conjunction of per-field comparisons forming the `abs_diff_eq` body
(which ends in `true`). -/
structure AbsDiffEqImpl where
  Epsilon : Ty
  default_epsilon : DefaultExpr
  comparisons : List AbsCmp
deriving DecidableEq

/-- The content of a generated `impl approx::RelativeEq` block. -/
structure RelativeEqImpl where
  default_max_relative : DefaultExpr
  comparisons : List RelCmp
deriving DecidableEq

/-- Mirror of `AbsDiffEqParser::implement_derive_abs_diff_eq`
(lib.rs:412-437). -/
def AbsDiffEqParser.implement_derive_abs_diff_eq (p : AbsDiffEqParser) : AbsDiffEqImpl :=
  let tv := p.get_epsilon_type_and_default_value
  { Epsilon := tv.1
    default_epsilon := tv.2
    comparisons := p.get_abs_diff_eq_fields }

/-- Mirror of `AbsDiffEqParser::implement_derive_rel_diff_eq`
(lib.rs:439-467). -/
def AbsDiffEqParser.implement_derive_rel_diff_eq (p : AbsDiffEqParser) : RelativeEqImpl :=
  { default_max_relative := p.get_max_relative_default_value
    comparisons := p.get_rel_eq_fields }

/-- Which trait implementations one invocation of a derive macro emits. -/
structure DeriveOutput where
  absImpl : Option AbsDiffEqImpl
  relImpl : Option RelativeEqImpl
deriving DecidableEq

/-- Mirror of the `AbsDiffEq` entry point `derive_abs_diff_eq`
(lib.rs:471-475): it emits only the `AbsDiffEq` implementation. -/
def derive_abs_diff_eq (p : AbsDiffEqParser) : DeriveOutput :=
  { absImpl := some p.implement_derive_abs_diff_eq
    relImpl := none }

/-- Mirror of the `RelativeEq` entry point `derive_rel_diff_eq`
(lib.rs:478-485): it emits the `AbsDiffEq` implementation followed by the
`RelativeEq` implementation. -/
def derive_rel_diff_eq (p : AbsDiffEqParser) : DeriveOutput :=
  { absImpl := some p.implement_derive_abs_diff_eq
    relImpl := some p.implement_derive_rel_diff_eq }

/-- Semantics of the collaborating `approx` traits and of the Rust `as`
casts and static expressions appearing in generated code, over one value
universe `V`.  `absDiffEq ty a b eps` is
`<ty as approx::AbsDiffEq>::abs_diff_eq(&a, &b, eps)`, `relativeEq` the
`RelativeEq` analogue, `castVal v ty` is `v as ty`, and `evalStatic e` the
value of the user-written expression `e`. -/
structure Env (V : Type) where
  absDiffEq : Ty → V → V → V → Bool
  relativeEq : Ty → V → V → V → V → Bool
  castVal : V → Ty → V
  evalStatic : RustExpr → V

/-- Value of an operand token, given the field values of `self` and
`other`. -/
def evalOperand {V : Type} (env : Env V) (s o : String → V) : Operand → V
  | Operand.ref Recv.own n => s n
  | Operand.ref Recv.other n => o n
  | Operand.castRef Recv.own n ty => env.castVal (s n) ty
  | Operand.castRef Recv.other n ty => env.castVal (o n) ty

/-- Value of a tolerance token, given the values bound to the ambient
identifiers `epsilon` and `max_relative`. -/
def evalTol {V : Type} (env : Env V) (epsilon max_relative : V) : TolExpr → V
  | TolExpr.static e => env.evalStatic e
  | TolExpr.ambientEpsilon => epsilon
  | TolExpr.ambientMaxRelative => max_relative
  | TolExpr.castTo t ty => env.castVal (evalTol env epsilon max_relative t) ty

/-- Whether a tolerance token mentions the identifier `max_relative`. -/
def TolExpr.mentionsMaxRelative : TolExpr → Bool
  | TolExpr.static _ => false
  | TolExpr.ambientEpsilon => false
  | TolExpr.ambientMaxRelative => true
  | TolExpr.castTo t _ => t.mentionsMaxRelative

/-- Runtime value of one generated absolute comparison.  Inside the
generated `abs_diff_eq` body only `epsilon` is in scope; an epsilon slot
of generated code never mentions `max_relative`
(`epsilon_slot_no_max_relative` below), so the value bound to the
out-of-scope identifier is immaterial and fixed to `default`. -/
def AbsCmp.eval {V : Type} [Inhabited V] (c : AbsCmp) (env : Env V)
    (s o : String → V) (epsilon : V) : Bool :=
  env.absDiffEq c.base_type (evalOperand env s o c.own_field)
    (evalOperand env s o c.other_field) (evalTol env epsilon default c.epsilon)

/-- Runtime value of one generated relative comparison. -/
def RelCmp.eval {V : Type} (c : RelCmp) (env : Env V)
    (s o : String → V) (epsilon max_relative : V) : Bool :=
  env.relativeEq c.base_type (evalOperand env s o c.own_field)
    (evalOperand env s o c.other_field)
    (evalTol env epsilon max_relative c.epsilon)
    (evalTol env epsilon max_relative c.max_relative)

/-- Runtime value of the generated `abs_diff_eq` body: the short-circuit
conjunction `c1 && (c2 && (... && true))` (lib.rs:430-433). -/
def AbsDiffEqImpl.abs_diff_eq {V : Type} [Inhabited V] (impl : AbsDiffEqImpl)
    (env : Env V) (s o : String → V) (epsilon : V) : Bool :=
  impl.comparisons.foldr (fun c acc => c.eval env s o epsilon && acc) true

/-- Runtime value of the generated `relative_eq` body (lib.rs:455-463). -/
def RelativeEqImpl.relative_eq {V : Type} (impl : RelativeEqImpl)
    (env : Env V) (s o : String → V) (epsilon max_relative : V) : Bool :=
  impl.comparisons.foldr (fun c acc => c.eval env s o epsilon max_relative && acc) true

/-- Specification-side description of the one absolute comparison resolved
for a non-skipped field (spec §4.2 per-field plan, §4.3 AbsoluteDifference
predicate): the comparison dispatches at the tolerance type (at the field's
own declared type under cast-tolerance), operands are the own/other field
references (cast to the tolerance type under cast-stored-value), and the
effective epsilon is the field's static epsilon when given, else the
ambient `epsilon` argument, cast to the declared type under
cast-tolerance. -/
def specAbsCmp (tolerance_type : Ty) (f : FieldWithArgs) : AbsCmp :=
  let effective_epsilon :=
    ((f.args.epsilon_static_value).map TolExpr.static).getD TolExpr.ambientEpsilon
  match f.args.cast_strategy with
  | some TypeCast.CastField =>
      { base_type := tolerance_type
        own_field := Operand.castRef Recv.own f.field.ident tolerance_type
        other_field := Operand.castRef Recv.other f.field.ident tolerance_type
        epsilon := effective_epsilon }
  | some TypeCast.CastValue =>
      { base_type := f.field.ty
        own_field := Operand.ref Recv.own f.field.ident
        other_field := Operand.ref Recv.other f.field.ident
        epsilon := TolExpr.castTo effective_epsilon f.field.ty }
  | none =>
      { base_type := tolerance_type
        own_field := Operand.ref Recv.own f.field.ident
        other_field := Operand.ref Recv.other f.field.ident
        epsilon := effective_epsilon }

/-- Example field: an `f64` field `a` with a `cast_value` attribute and a
static epsilon; used to witness C5. -/
def exampleCastValueField : FieldWithArgs :=
  { field := { ident := "a", ty := "f64" }
    args := { skip := false
              cast_strategy := some TypeCast.CastValue
              epsilon_static_value := some "5e-2"
              max_relative_static_value := none } }

/-- Example parser holding only `exampleCastValueField`. -/
def exampleCastValueParser : AbsDiffEqParser :=
  { fields_with_args := [exampleCastValueField]
    struct_args := { epsilon_type := none
                     default_epsilon_value := none
                     default_max_relative_value := none } }

/-- Collaborator semantics over `Nat` in which the absolute comparison
accepts exactly equal values at tolerance zero, and every static
expression evaluates to `1`. -/
def natZeroEnv : Env Nat :=
  { absDiffEq := fun _ a b eps => a == b && eps == 0
    relativeEq := fun _ a b eps mr => a == b && eps == 0 && mr == 0
    castVal := fun v _ => v
    evalStatic := fun _ => 1 }

/-- Example field: an `f64` field `b` carrying both a static epsilon and a
static max-relative; used to witness C6. -/
def staticBothField : FieldWithArgs :=
  { field := { ident := "b", ty := "f64" }
    args := { skip := false
              cast_strategy := none
              epsilon_static_value := some "5e-2"
              max_relative_static_value := some "1e-1" } }

/-- Example parser holding only `staticBothField`. -/
def staticBothParser : AbsDiffEqParser :=
  { fields_with_args := [staticBothField]
    struct_args := { epsilon_type := none
                     default_epsilon_value := none
                     default_max_relative_value := none } }

/-- The formatted comparison data of `staticBothField`. -/
def staticBothFormatted : FieldFormatted :=
  { base_type := "f64"
    own_field := Operand.ref Recv.own "b"
    other_field := Operand.ref Recv.other "b"
    epsilon := TolExpr.static "5e-2"
    max_relative := TolExpr.static "1e-1" }

/-- Parser exposing the gap in C9 as stated: a single unskipped, castless
`f64` field that carries a static epsilon. -/
def staticEpsilonParser : AbsDiffEqParser :=
  { fields_with_args := [{ field := { ident := "a", ty := "f64" }
                           args := { skip := false
                                     cast_strategy := none
                                     epsilon_static_value := some "1"
                                     max_relative_static_value := none } }]
    struct_args := { epsilon_type := none
                     default_epsilon_value := none
                     default_max_relative_value := none } }

/-- Collaborator semantics over `Nat` in which values compare equal
exactly when they are equal, at any tolerance. -/
def natEqEnv : Env Nat :=
  { absDiffEq := fun _ a b _ => a == b
    relativeEq := fun _ a b _ _ => a == b
    castVal := fun v _ => v
    evalStatic := fun _ => 0 }

/-- Parser with a single plain field: unskipped, castless, no statics. -/
def plainFieldParser : AbsDiffEqParser :=
  { fields_with_args := [{ field := { ident := "x", ty := "f64" }
                           args := { skip := false
                                     cast_strategy := none
                                     epsilon_static_value := none
                                     max_relative_static_value := none } }]
    struct_args := { epsilon_type := none
                     default_epsilon_value := none
                     default_max_relative_value := none } }

/-- Parser transformation deleting every field's static max-relative
annotation. -/
def eraseStaticMaxRelative (p : AbsDiffEqParser) : AbsDiffEqParser :=
  { p with fields_with_args := p.fields_with_args.map (fun f =>
      { f with args := { f.args with max_relative_static_value := none } }) }

theorem format_field_of_skip (p : AbsDiffEqParser) (f : FieldWithArgs)
    (h : f.args.skip = true) : p.format_field f = none := by
  simp [AbsDiffEqParser.format_field, h]

theorem format_field_abs_of_not_skip (p : AbsDiffEqParser) (f : FieldWithArgs)
    (h : f.args.skip = false) :
    (p.format_field f).map absCmpOfFormatted = some (specAbsCmp p.get_epsilon_type f) := by
  cases hc : f.args.cast_strategy with
  | none =>
      simp [AbsDiffEqParser.format_field, h, hc, specAbsCmp, absCmpOfFormatted]
  | some c =>
      cases c <;>
        simp [AbsDiffEqParser.format_field, h, hc, specAbsCmp, absCmpOfFormatted]

theorem get_abs_diff_eq_fields_eq_map (p : AbsDiffEqParser) :
    p.get_abs_diff_eq_fields
      = (p.fields_with_args.filter (fun f => !f.args.skip)).map
          (specAbsCmp p.get_epsilon_type) := by
  show p.fields_with_args.filterMap _ = _
  induction p.fields_with_args with
  | nil => rfl
  | cons f l ih =>
      cases h : f.args.skip with
      | true =>
          simp [List.filterMap_cons, List.filter_cons, h,
            format_field_of_skip p f h, ih]
      | false =>
          simp [List.filterMap_cons, List.filter_cons, h,
            format_field_abs_of_not_skip p f h, ih]

theorem foldr_and_eq_all {α : Type} (e : α → Bool) (l : List α) :
    l.foldr (fun c acc => e c && acc) true = l.all e := by
  induction l with
  | nil => rfl
  | cons a l ih => simp [List.all_cons, ih]

/-- C1: the generated absolute-difference predicate consists of one
comparison per non-skipped field, in field declaration order, each passing
the own field reference, the other's field reference and that field's
effective epsilon; at runtime the predicate returns true iff every one of
those per-field comparisons returns true. -/
theorem abs_predicate_ordered_conjunction (p : AbsDiffEqParser) :
    p.implement_derive_abs_diff_eq.comparisons
        = (p.fields_with_args.filter (fun f => !f.args.skip)).map
            (specAbsCmp p.get_epsilon_type)
      ∧ ∀ (V : Type) [Inhabited V] (env : Env V) (s o : String → V) (epsilon : V),
          (p.implement_derive_abs_diff_eq.abs_diff_eq env s o epsilon = true ↔
            ∀ c ∈ p.implement_derive_abs_diff_eq.comparisons,
              c.eval env s o epsilon = true) := by
  constructor
  · exact get_abs_diff_eq_fields_eq_map p
  · intro V iV env s o epsilon
    rw [AbsDiffEqImpl.abs_diff_eq, foldr_and_eq_all]
    exact List.all_eq_true

/-- C2: the resolved tolerance type is the explicit `epsilon_type`
override when present, else the declared type of the first field, else
`f64` when the type has zero fields. -/
theorem epsilon_type_resolution (p : AbsDiffEqParser) :
    (∀ t, p.struct_args.epsilon_type = some t → p.get_epsilon_type = t)
  ∧ (p.struct_args.epsilon_type = none →
      ∀ f fs, p.fields_with_args = f :: fs → p.get_epsilon_type = f.field.ty)
  ∧ (p.struct_args.epsilon_type = none → p.fields_with_args = [] →
      p.get_epsilon_type = f64) := by
  refine ⟨fun t ht => ?_, fun hn f fs hf => ?_, fun hn hf => ?_⟩ <;>
    simp [AbsDiffEqParser.get_epsilon_type, *, Option.orElse]

/-- C3: the generated `default_epsilon` body is the struct-level
`default_epsilon` expression when given, else `EPSILON` of the resolved
tolerance type; the generated `default_max_relative` body mirrors this
with `default_max_relative`. -/
theorem default_value_resolution (p : AbsDiffEqParser) :
    ((p.get_epsilon_type_and_default_value).1 = p.get_epsilon_type)
  ∧ (∀ e, p.struct_args.default_epsilon_value = some e →
      (p.get_epsilon_type_and_default_value).2 = DefaultExpr.given e)
  ∧ (p.struct_args.default_epsilon_value = none →
      (p.get_epsilon_type_and_default_value).2
        = DefaultExpr.epsilonConst p.get_epsilon_type)
  ∧ (∀ e, p.struct_args.default_max_relative_value = some e →
      p.get_max_relative_default_value = DefaultExpr.given e)
  ∧ (p.struct_args.default_max_relative_value = none →
      p.get_max_relative_default_value
        = DefaultExpr.epsilonConst p.get_epsilon_type) := by
  refine ⟨rfl, fun e he => ?_, fun hn => ?_, fun e he => ?_, fun hn => ?_⟩ <;>
    simp [AbsDiffEqParser.get_epsilon_type_and_default_value,
      AbsDiffEqParser.get_max_relative_default_value, *]

theorem get_epsilon_type_congr (sa : StructArgs) (l1 l2 : List FieldWithArgs)
    (h : l1.map (fun f => f.field.ty) = l2.map (fun f => f.field.ty)) :
    (AbsDiffEqParser.mk l1 sa).get_epsilon_type
      = (AbsDiffEqParser.mk l2 sa).get_epsilon_type := by
  have hh : l1.head?.map (fun f => f.field.ty) = l2.head?.map (fun f => f.field.ty) := by
    rw [← List.head?_map, ← List.head?_map, h]
  simp only [AbsDiffEqParser.get_epsilon_type] at hh ⊢
  cases hsa : sa.epsilon_type with
  | some t => simp [Option.orElse]
  | none => simp [Option.orElse, hh]

theorem format_field_congr (p q : AbsDiffEqParser)
    (h : p.get_epsilon_type = q.get_epsilon_type) (f : FieldWithArgs) :
    p.format_field f = q.format_field f := by
  simp only [AbsDiffEqParser.format_field, h]

/-- C4: a skipped field contributes no comparison; the other annotations
of a skipped field have no effect on the derive output; and when every
field is skipped (vacuously also for zero fields) both generated
predicates return true on all operands and tolerances. -/
theorem skipped_fields_inert :
    (∀ (p : AbsDiffEqParser) (f : FieldWithArgs), f.args.skip = true →
        p.format_field f = none)
  ∧ (∀ (sa : StructArgs) (pre post : List FieldWithArgs) (n : String) (ty : Ty)
        (a b : FieldArgs), a.skip = true → b.skip = true →
        derive_rel_diff_eq ⟨pre ++ ⟨⟨n, ty⟩, a⟩ :: post, sa⟩
          = derive_rel_diff_eq ⟨pre ++ ⟨⟨n, ty⟩, b⟩ :: post, sa⟩)
  ∧ (∀ (p : AbsDiffEqParser), (∀ f ∈ p.fields_with_args, f.args.skip = true) →
      ∀ (V : Type) [Inhabited V] (env : Env V) (s o : String → V)
        (epsilon max_relative : V),
        p.implement_derive_abs_diff_eq.abs_diff_eq env s o epsilon = true
        ∧ p.implement_derive_rel_diff_eq.relative_eq env s o epsilon max_relative
            = true) := by
  refine ⟨format_field_of_skip, ?_, ?_⟩
  · intro sa pre post n ty a b ha hb
    set p1 : AbsDiffEqParser := ⟨pre ++ ⟨⟨n, ty⟩, a⟩ :: post, sa⟩ with hp1
    set p2 : AbsDiffEqParser := ⟨pre ++ ⟨⟨n, ty⟩, b⟩ :: post, sa⟩ with hp2
    have heps : p1.get_epsilon_type = p2.get_epsilon_type := by
      apply get_epsilon_type_congr
      simp
    have hff : ∀ f, p1.format_field f = p2.format_field f :=
      format_field_congr p1 p2 heps
    have habs : p1.get_abs_diff_eq_fields = p2.get_abs_diff_eq_fields := by
      simp only [AbsDiffEqParser.get_abs_diff_eq_fields, hp1, hp2,
        List.filterMap_append, List.filterMap_cons,
        format_field_of_skip p1 ⟨⟨n, ty⟩, a⟩ ha,
        format_field_of_skip p2 ⟨⟨n, ty⟩, b⟩ hb]
      simp only [funext hff]
    have hrel : p1.get_rel_eq_fields = p2.get_rel_eq_fields := by
      simp only [AbsDiffEqParser.get_rel_eq_fields, hp1, hp2,
        List.filterMap_append, List.filterMap_cons,
        format_field_of_skip p1 ⟨⟨n, ty⟩, a⟩ ha,
        format_field_of_skip p2 ⟨⟨n, ty⟩, b⟩ hb]
      simp only [funext hff]
    simp [derive_rel_diff_eq, AbsDiffEqParser.implement_derive_abs_diff_eq,
      AbsDiffEqParser.implement_derive_rel_diff_eq,
      AbsDiffEqParser.get_epsilon_type_and_default_value,
      AbsDiffEqParser.get_max_relative_default_value, heps, habs, hrel]
  · intro p hall V iV env s o epsilon max_relative
    have habs : p.get_abs_diff_eq_fields = [] := by
      rw [AbsDiffEqParser.get_abs_diff_eq_fields, List.filterMap_eq_nil_iff]
      intro f hf
      simp [format_field_of_skip p f (hall f hf)]
    have hrel : p.get_rel_eq_fields = [] := by
      rw [AbsDiffEqParser.get_rel_eq_fields, List.filterMap_eq_nil_iff]
      intro f hf
      simp [format_field_of_skip p f (hall f hf)]
    constructor
    · simp [AbsDiffEqImpl.abs_diff_eq, AbsDiffEqParser.implement_derive_abs_diff_eq,
        habs]
    · simp [RelativeEqImpl.relative_eq, AbsDiffEqParser.implement_derive_rel_diff_eq,
        hrel]

/-- C5: shape of the comparison of a non-skipped field under each cast
strategy.  Under `cast_field` both operands are cast to the tolerance type,
dispatch is at the tolerance type and the tolerance expressions are used
unmodified; under `cast_value` operands stay at the declared type, dispatch
is at the declared type and the tolerance expressions are cast to the
declared type at the comparison site; under no cast, operands are used as
declared and dispatch is at the tolerance type. -/
theorem cast_strategy_shapes (p : AbsDiffEqParser) (f : FieldWithArgs)
    (h : f.args.skip = false) :
    (f.args.cast_strategy = some TypeCast.CastField →
        p.format_field f = some {
          base_type := p.get_epsilon_type
          own_field := Operand.castRef Recv.own f.field.ident p.get_epsilon_type
          other_field := Operand.castRef Recv.other f.field.ident p.get_epsilon_type
          epsilon := ((f.args.epsilon_static_value).map TolExpr.static).getD
            TolExpr.ambientEpsilon
          max_relative := ((f.args.max_relative_static_value).map TolExpr.static).getD
            TolExpr.ambientMaxRelative })
  ∧ (f.args.cast_strategy = some TypeCast.CastValue →
        p.format_field f = some {
          base_type := f.field.ty
          own_field := Operand.ref Recv.own f.field.ident
          other_field := Operand.ref Recv.other f.field.ident
          epsilon := TolExpr.castTo
            (((f.args.epsilon_static_value).map TolExpr.static).getD
              TolExpr.ambientEpsilon) f.field.ty
          max_relative := TolExpr.castTo
            (((f.args.max_relative_static_value).map TolExpr.static).getD
              TolExpr.ambientMaxRelative) f.field.ty })
  ∧ (f.args.cast_strategy = none →
        p.format_field f = some {
          base_type := p.get_epsilon_type
          own_field := Operand.ref Recv.own f.field.ident
          other_field := Operand.ref Recv.other f.field.ident
          epsilon := ((f.args.epsilon_static_value).map TolExpr.static).getD
            TolExpr.ambientEpsilon
          max_relative := ((f.args.max_relative_static_value).map TolExpr.static).getD
            TolExpr.ambientMaxRelative }) := by
  refine ⟨fun hc => ?_, fun hc => ?_, fun hc => ?_⟩ <;>
    simp [AbsDiffEqParser.format_field, h, hc]



theorem cast_strategy_shapes_witness :
    exampleCastValueParser.format_field exampleCastValueField
      = some {
          base_type := "f64"
          own_field := Operand.ref Recv.own "a"
          other_field := Operand.ref Recv.other "a"
          epsilon := TolExpr.castTo (TolExpr.static "5e-2") "f64"
          max_relative := TolExpr.castTo TolExpr.ambientMaxRelative "f64" } :=
  (cast_strategy_shapes exampleCastValueParser exampleCastValueField rfl).2.1 rfl

/-- C6: a non-skipped field's comparison uses its static epsilon when one
is given — making its evaluated absolute comparison independent of the
caller-supplied `epsilon` argument — and otherwise its effective epsilon
evaluates to exactly the caller-supplied ambient `epsilon` (cast to the
declared field type under `cast_value`), never to the struct-level
default; in parallel, it uses its static max-relative when one is given —
making its evaluated relative comparison independent of the
caller-supplied `max_relative` argument — and otherwise its effective
max-relative evaluates to exactly the caller-supplied ambient
`max_relative` (cast to the declared field type under `cast_value`),
never to the struct-level default. -/
theorem static_epsilon_independent (p : AbsDiffEqParser) (f : FieldWithArgs)
    (ff : FieldFormatted) (h : p.format_field f = some ff) :
    (∀ e, f.args.epsilon_static_value = some e →
        ∀ (V : Type) [Inhabited V] (env : Env V) (s o : String → V) (eps1 eps2 : V),
          (absCmpOfFormatted ff).eval env s o eps1
            = (absCmpOfFormatted ff).eval env s o eps2)
  ∧ (f.args.epsilon_static_value = none →
        ∀ (V : Type) [Inhabited V] (env : Env V) (epsilon : V),
          evalTol env epsilon default ff.epsilon
            = (match f.args.cast_strategy with
               | some TypeCast.CastValue => env.castVal epsilon f.field.ty
               | _ => epsilon))
  ∧ (∀ e, f.args.max_relative_static_value = some e →
        ∀ (V : Type) (env : Env V) (s o : String → V) (epsilon mr1 mr2 : V),
          (relCmpOfFormatted ff).eval env s o epsilon mr1
            = (relCmpOfFormatted ff).eval env s o epsilon mr2)
  ∧ (f.args.max_relative_static_value = none →
        ∀ (V : Type) (env : Env V) (epsilon max_relative : V),
          evalTol env epsilon max_relative ff.max_relative
            = (match f.args.cast_strategy with
               | some TypeCast.CastValue => env.castVal max_relative f.field.ty
               | _ => max_relative)) := by
  have hskip : f.args.skip = false := by
    cases hs : f.args.skip
    · rfl
    · rw [format_field_of_skip p f hs] at h
      exact absurd h (by simp)
  refine ⟨?_, ?_, ?_, ?_⟩
  · intro e he V iV env s o eps1 eps2
    cases hc : f.args.cast_strategy with
    | none =>
        simp only [AbsDiffEqParser.format_field, hskip, hc, he] at h
        simp only [Bool.false_eq_true, if_false, Option.map_some, Option.getD_some,
          Option.some_inj] at h
        subst h
        simp [absCmpOfFormatted, AbsCmp.eval, evalTol]
    | some c =>
        cases c <;>
          · simp only [AbsDiffEqParser.format_field, hskip, hc, he] at h
            simp only [Bool.false_eq_true, if_false, Option.map_some, Option.getD_some,
              Option.some_inj] at h
            subst h
            simp [absCmpOfFormatted, AbsCmp.eval, evalTol]
  · intro hn V iV env epsilon
    cases hc : f.args.cast_strategy with
    | none =>
        simp only [AbsDiffEqParser.format_field, hskip, hc, hn] at h
        simp only [Bool.false_eq_true, if_false, Option.map_none, Option.getD_none,
          Option.some_inj] at h
        subst h
        simp [evalTol]
    | some c =>
        cases c <;>
          · simp only [AbsDiffEqParser.format_field, hskip, hc, hn] at h
            simp only [Bool.false_eq_true, if_false, Option.map_none, Option.getD_none,
              Option.some_inj] at h
            subst h
            simp [evalTol]
  · intro e he V env s o epsilon mr1 mr2
    cases hc : f.args.cast_strategy with
    | none =>
        cases hes : f.args.epsilon_static_value <;>
          · simp only [AbsDiffEqParser.format_field, hskip, hc, he, hes] at h
            simp only [Bool.false_eq_true, if_false, Option.map_some, Option.map_none,
              Option.getD_some, Option.getD_none, Option.some_inj] at h
            subst h
            simp [relCmpOfFormatted, RelCmp.eval, evalTol]
    | some c =>
        cases c <;> cases hes : f.args.epsilon_static_value <;>
          · simp only [AbsDiffEqParser.format_field, hskip, hc, he, hes] at h
            simp only [Bool.false_eq_true, if_false, Option.map_some, Option.map_none,
              Option.getD_some, Option.getD_none, Option.some_inj] at h
            subst h
            simp [relCmpOfFormatted, RelCmp.eval, evalTol]
  · intro hn V env epsilon max_relative
    cases hc : f.args.cast_strategy with
    | none =>
        simp only [AbsDiffEqParser.format_field, hskip, hc, hn] at h
        simp only [Bool.false_eq_true, if_false, Option.map_none, Option.getD_none,
          Option.some_inj] at h
        subst h
        simp [evalTol]
    | some c =>
        cases c <;>
          · simp only [AbsDiffEqParser.format_field, hskip, hc, hn] at h
            simp only [Bool.false_eq_true, if_false, Option.map_none, Option.getD_none,
              Option.some_inj] at h
            subst h
            simp [evalTol]


theorem static_epsilon_independent_witness :
    ((absCmpOfFormatted staticBothFormatted).eval natZeroEnv
        (fun _ => 3) (fun _ => 3) 0
      = (absCmpOfFormatted staticBothFormatted).eval natZeroEnv
        (fun _ => 3) (fun _ => 3) 7)
  ∧ ((relCmpOfFormatted staticBothFormatted).eval natZeroEnv
        (fun _ => 3) (fun _ => 3) 0 2
      = (relCmpOfFormatted staticBothFormatted).eval natZeroEnv
        (fun _ => 3) (fun _ => 3) 0 9) :=
  ⟨(static_epsilon_independent staticBothParser staticBothField
      staticBothFormatted rfl).1 "5e-2" rfl Nat natZeroEnv
      (fun _ => 3) (fun _ => 3) 0 7,
   (static_epsilon_independent staticBothParser staticBothField
      staticBothFormatted rfl).2.2.1 "1e-1" rfl Nat natZeroEnv
      (fun _ => 3) (fun _ => 3) 0 2 9⟩

/-- C7: the `RelativeEq` derive entry point emits the very `AbsDiffEq`
implementation the `AbsDiffEq` entry point emits, together with the
`RelativeEq` implementation, while the `AbsDiffEq` entry point emits no
`RelativeEq` implementation. -/
theorem rel_derive_extends_abs (p : AbsDiffEqParser) :
    (derive_rel_diff_eq p).absImpl = (derive_abs_diff_eq p).absImpl
  ∧ (derive_rel_diff_eq p).relImpl = some p.implement_derive_rel_diff_eq
  ∧ (derive_abs_diff_eq p).relImpl = none :=
  ⟨rfl, rfl, rfl⟩

/-- C8: for a type with zero fields, and for a type whose sole field is
skipped, derivation is total and the generated `default_epsilon` body is
`EPSILON` of the tolerance type the documented fallback chain resolves —
`f64` for zero fields, the sole field's declared type otherwise — and the
generated predicate has no comparisons. -/
theorem degenerate_defaults :
    (∀ sa : StructArgs, sa.epsilon_type = none → sa.default_epsilon_value = none →
        (AbsDiffEqParser.mk [] sa).get_epsilon_type_and_default_value
          = (f64, DefaultExpr.epsilonConst f64)
        ∧ (AbsDiffEqParser.mk [] sa).get_abs_diff_eq_fields = [])
  ∧ (∀ (sa : StructArgs) (n : String) (ty : Ty) (a : FieldArgs),
        sa.epsilon_type = none → sa.default_epsilon_value = none → a.skip = true →
        (AbsDiffEqParser.mk [⟨⟨n, ty⟩, a⟩] sa).get_epsilon_type_and_default_value
          = (ty, DefaultExpr.epsilonConst ty)
        ∧ (AbsDiffEqParser.mk [⟨⟨n, ty⟩, a⟩] sa).get_abs_diff_eq_fields = []) := by
  constructor
  · intro sa h1 h2
    constructor
    · simp [AbsDiffEqParser.get_epsilon_type_and_default_value,
        AbsDiffEqParser.get_epsilon_type, h1, h2, Option.orElse]
    · rfl
  · intro sa n ty a h1 h2 ha
    have hsk : ({ field := { ident := n, ty := ty }, args := a } : FieldWithArgs).args.skip
        = true := ha
    constructor
    · simp [AbsDiffEqParser.get_epsilon_type_and_default_value,
        AbsDiffEqParser.get_epsilon_type, h1, h2, Option.orElse]
    · simp [AbsDiffEqParser.get_abs_diff_eq_fields,
        format_field_of_skip _ _ hsk]


/-- C9 as stated is false: every field of `staticEpsilonParser` is
unskipped and castless and `natZeroEnv`'s absolute comparison is reflexive
at zero tolerance at every type token, yet the generated predicate on two
identical operands at zero tolerance returns false — the field's static
epsilon (value 1 under `natZeroEnv`) replaces the caller's zero tolerance
in that field's comparison. -/
theorem reflexivity_at_zero_counterexample :
    (∀ f ∈ staticEpsilonParser.fields_with_args,
        f.args.skip = false ∧ f.args.cast_strategy = none)
  ∧ (∀ (ty : Ty) (v : Nat), natZeroEnv.absDiffEq ty v v 0 = true)
  ∧ staticEpsilonParser.implement_derive_abs_diff_eq.abs_diff_eq natZeroEnv
      (fun _ => 3) (fun _ => 3) 0 = false := by
  refine ⟨?_, fun ty v => by simp [natZeroEnv], rfl⟩
  intro f hf
  simp only [staticEpsilonParser, List.mem_singleton] at hf
  subst hf
  exact ⟨rfl, rfl⟩

/-- C9 (amended): for a type whose fields are all unskipped and carry
neither a cast strategy nor a static epsilon, the generated absolute
predicate on identical operands at zero tolerance returns true, provided
the collaborator absolute comparison at the tolerance type is reflexive at
zero tolerance. -/
theorem reflexivity_at_zero (p : AbsDiffEqParser) (V : Type) [iV : Inhabited V]
    (env : Env V) (s : String → V) (zero : V)
    (hfields : ∀ f ∈ p.fields_with_args,
      f.args.skip = false ∧ f.args.cast_strategy = none
        ∧ f.args.epsilon_static_value = none)
    (hrefl : ∀ v : V, env.absDiffEq p.get_epsilon_type v v zero = true) :
    p.implement_derive_abs_diff_eq.abs_diff_eq env s s zero = true := by
  have hcomp : p.implement_derive_abs_diff_eq.comparisons
      = (p.fields_with_args.filter (fun f => !f.args.skip)).map
          (specAbsCmp p.get_epsilon_type) :=
    get_abs_diff_eq_fields_eq_map p
  rw [AbsDiffEqImpl.abs_diff_eq, foldr_and_eq_all, List.all_eq_true]
  intro c hc
  rw [show p.implement_derive_abs_diff_eq.comparisons = p.get_abs_diff_eq_fields
    from rfl, get_abs_diff_eq_fields_eq_map p] at hc
  obtain ⟨f, hf, rfl⟩ := List.mem_map.mp hc
  obtain ⟨hskip, hcast, hstat⟩ := hfields f (List.mem_filter.mp hf).1
  simp [specAbsCmp, hcast, hstat, AbsCmp.eval, evalTol, evalOperand, hrefl]



theorem reflexivity_at_zero_witness :
    plainFieldParser.implement_derive_abs_diff_eq.abs_diff_eq natEqEnv
      (fun _ => 5) (fun _ => 5) 0 = true :=
  reflexivity_at_zero plainFieldParser Nat natEqEnv (fun _ => 5) 0
    (by decide) (fun v => by simp [natEqEnv])


theorem format_field_erase_mr (p q : AbsDiffEqParser)
    (h : p.get_epsilon_type = q.get_epsilon_type) (f : FieldWithArgs) :
    (q.format_field { f with args := { f.args with max_relative_static_value := none } }).map
        absCmpOfFormatted
      = (p.format_field f).map absCmpOfFormatted := by
  cases hs : f.args.skip
  · cases hc : f.args.cast_strategy with
    | none => simp [AbsDiffEqParser.format_field, hs, hc, h, absCmpOfFormatted]
    | some c =>
        cases c <;>
          simp [AbsDiffEqParser.format_field, hs, hc, h, absCmpOfFormatted]
  · have hs2 : ({ f with args := { f.args with max_relative_static_value := none } }
        : FieldWithArgs).args.skip = true := hs
    rw [format_field_of_skip p f hs, format_field_of_skip q _ hs2]

/-- C10: the generated `AbsDiffEq` implementation is identical to the one
generated after deleting every static max-relative annotation — static
max-relative values never influence the absolute predicate. -/
theorem abs_ignores_static_max_relative (p : AbsDiffEqParser) :
    (eraseStaticMaxRelative p).implement_derive_abs_diff_eq
      = p.implement_derive_abs_diff_eq := by
  have hty : (eraseStaticMaxRelative p).fields_with_args.map (fun f => f.field.ty)
      = p.fields_with_args.map (fun f => f.field.ty) := by
    rw [eraseStaticMaxRelative, List.map_map]
    rfl
  have heps : (eraseStaticMaxRelative p).get_epsilon_type = p.get_epsilon_type :=
    get_epsilon_type_congr p.struct_args _ _ hty
  have hcomp : (eraseStaticMaxRelative p).get_abs_diff_eq_fields
      = p.get_abs_diff_eq_fields := by
    rw [AbsDiffEqParser.get_abs_diff_eq_fields, AbsDiffEqParser.get_abs_diff_eq_fields]
    show List.filterMap _ (p.fields_with_args.map _) = _
    rw [List.filterMap_map]
    exact congrArg (fun g => List.filterMap g p.fields_with_args)
      (funext (fun f => format_field_erase_mr p (eraseStaticMaxRelative p) heps.symm f))
  have hsa : (eraseStaticMaxRelative p).struct_args = p.struct_args := rfl
  simp only [AbsDiffEqParser.implement_derive_abs_diff_eq,
    AbsDiffEqParser.get_epsilon_type_and_default_value, AbsDiffEqImpl.mk.injEq,
    hsa, heps, hcomp, and_self]

end ApproxDerive
